import Mathlib

/-!
Shallow embedding of the pull-request review frontend
(src/frontend/src/app/App.tsx and src/frontend/src/app/components/HomePage.tsx)
together with spec-level definitions of the scoring engine and diff resolver,
used to check the natural-language specification against the code.
-/

namespace PRReviewer

/-- The four-value severity enum from the `AnalysisResult` type in App.tsx. -/
inductive Severity where
  | critical
  | high
  | medium
  | low
deriving DecidableEq

/-- A single finding, as in the `findings` array element type of `AnalysisResult`
in App.tsx.  The JS `number` confidence is embedded as a rational. -/
structure Finding where
  title : String
  severity : Severity
  confidence : ℚ
  file : String
  evidence : String
  recommendation : String
deriving DecidableEq

/-- `pr_summary` component of `AnalysisResult` (App.tsx). -/
structure PrSummary where
  what_changed : String
  why_it_changed : String
  key_files : List String
deriving DecidableEq

/-- `risk_matrix` component of `AnalysisResult` (App.tsx). -/
structure RiskMatrix where
  security : Severity
  performance : Severity
  breaking_change : Severity
  maintainability : Severity
deriving DecidableEq

/-- `test_plan` component of `AnalysisResult` (App.tsx). -/
structure TestPlan where
  unit_tests : List String
  integration_tests : List String
  edge_cases : List String
deriving DecidableEq

/-- `merge_readiness` component of `AnalysisResult` (App.tsx).  The JS
`score: number` holds integer values in this program, embedded as `Int`. -/
structure MergeReadiness where
  score : Int
  blockers : List String
  notes : String
deriving DecidableEq

/-- The `AnalysisResult` type exported by App.tsx. -/
structure AnalysisResult where
  pr_summary : PrSummary
  findings : List Finding
  risk_matrix : RiskMatrix
  test_plan : TestPlan
  merge_readiness : MergeReadiness
deriving DecidableEq

/-- The options object the HomePage form passes to `onAnalyze`:
`{ useRepoRules }` (HomePage.tsx line 26). -/
structure AnalyzeOptions where
  useRepoRules : Bool
deriving DecidableEq

/-- The constant `mockResult` built inside `handleAnalyze` (App.tsx lines
49-148), transcribed field by field. -/
def mockResult : AnalysisResult :=
  { pr_summary :=
      { what_changed := "Refactored authentication middleware to use JWT tokens instead of session cookies. Added new user role management system with granular permissions."
        why_it_changed := "Session-based auth was causing scaling issues with multiple server instances. The new JWT approach enables stateless authentication and better horizontal scaling."
        key_files :=
          [ "api/auth/middleware.py"
          , "api/auth/jwt_handler.py"
          , "api/models/user.py"
          , "api/routes/auth.py" ] }
    findings :=
      [ { title := "Potential auth bypass in middleware"
          severity := Severity.critical
          confidence := mkRat 87 100
          file := "api/auth/middleware.py"
          evidence := "Line 45-52: JWT validation skipped when 'X-Internal-Request' header is present without additional verification"
          recommendation := "Add IP whitelist validation or service account verification before bypassing JWT check. Consider using a separate internal service token instead." }
      , { title := "Missing rate limiting on new auth endpoints"
          severity := Severity.high
          confidence := mkRat 92 100
          file := "api/routes/auth.py"
          evidence := "Lines 78-95: /api/auth/refresh endpoint has no rate limiting, vulnerable to token refresh abuse"
          recommendation := "Implement rate limiting (e.g., 5 requests per minute per user) on token refresh endpoint" }
      , { title := "Hardcoded JWT secret in test file"
          severity := Severity.high
          confidence := mkRat 95 100
          file := "tests/test_auth.py"
          evidence := "Line 12: JWT_SECRET = 'test-secret-key-do-not-use-in-production'"
          recommendation := "While this is a test file, ensure CI/CD pipelines use environment variables and this secret is never used in production" }
      , { title := "Database migration missing rollback script"
          severity := Severity.medium
          confidence := mkRat 78 100
          file := "migrations/0024_add_user_roles.sql"
          evidence := "Migration adds new columns but doesn't include a corresponding down migration"
          recommendation := "Add rollback migration script in case deployment needs to be reverted" }
      , { title := "Deprecated bcrypt rounds parameter"
          severity := Severity.medium
          confidence := mkRat 65 100
          file := "api/auth/password.py"
          evidence := "Line 23: Using bcrypt with 10 rounds, industry standard is now 12-14 rounds"
          recommendation := "Update to 12 rounds minimum for better security. Consider implementing gradual migration for existing passwords." }
      , { title := "Missing error logging in exception handler"
          severity := Severity.low
          confidence := mkRat 71 100
          file := "api/auth/middleware.py"
          evidence := "Lines 67-70: Exception caught but not logged, making debugging difficult"
          recommendation := "Add structured logging for authentication failures to aid in security monitoring" } ]
    risk_matrix :=
      { security := Severity.high
        performance := Severity.medium
        breaking_change := Severity.high
        maintainability := Severity.medium }
    test_plan :=
      { unit_tests :=
          [ "Test JWT token generation with various user roles"
          , "Test JWT validation with expired tokens"
          , "Test JWT validation with malformed tokens"
          , "Test middleware behavior with missing auth headers"
          , "Test password hashing with new bcrypt rounds"
          , "Test user role permission checks" ]
        integration_tests :=
          [ "Test full authentication flow from login to protected endpoint access"
          , "Test token refresh flow with valid and invalid tokens"
          , "Test session migration from old auth to new JWT auth"
          , "Test auth failure scenarios and error responses"
          , "Test concurrent requests with same JWT token" ]
        edge_cases :=
          [ "User with multiple active tokens accessing system"
          , "Token refresh during role permission changes"
          , "Clock skew scenarios for JWT expiration"
          , "Database rollback scenarios for user roles"
          , "Requests with both old session cookie and new JWT token" ] }
    merge_readiness :=
      { score := 62
        blockers :=
          [ "Critical: Auth bypass vulnerability must be fixed"
          , "High: Rate limiting must be implemented on auth endpoints" ]
        notes := "This PR introduces significant security improvements but has critical vulnerabilities that must be addressed before merge. The architectural change is sound, but implementation details need hardening." } }

/-- `handleAnalyze` from App.tsx (lines 43-153): ignores the submitted PR URL
and options and returns the fixed `mockResult` (the awaited timeout has no
effect on the value produced). -/
def handleAnalyze (prUrl : String) (options : AnalyzeOptions) : AnalysisResult :=
  mockResult

/-! ## Spec-level scoring engine

Definitions written from the spec's words (section 4.4), used to compare the
specified scoring engine with the result the frontend actually produces. -/

/-- Number of findings with the given severity in a finding list. -/
def countSeverity (s : Severity) (fs : List Finding) : Nat :=
  (fs.filter (fun f => f.severity = s)).length

/-- The spec's scoring formula (section 4.4):
`score = clamp(100 - 30*n_c - 15*n_h - 2*n_t, 0, 100)`. -/
def specScore (fs : List Finding) : Int :=
  max 0 (min 100
    (100 - 30 * (countSeverity Severity.critical fs : Int)
         - 15 * (countSeverity Severity.high fs : Int)
         - 2 * (fs.length : Int)))

/-- Severity rank for ordering: critical before high before medium before low. -/
def sevRank : Severity → Nat
  | Severity.critical => 0
  | Severity.high => 1
  | Severity.medium => 2
  | Severity.low => 3

/-- Ordering for blockers (spec section 4.4): descending severity first, then
descending confidence. -/
def blockerBefore (f g : Finding) : Bool :=
  sevRank f.severity < sevRank g.severity ||
    (sevRank f.severity = sevRank g.severity && g.confidence ≤ f.confidence)

/-- Insert a finding into a list sorted by `blockerBefore`. -/
def insertBlocker (f : Finding) : List Finding → List Finding
  | [] => [f]
  | g :: gs => if blockerBefore f g then f :: g :: gs else g :: insertBlocker f gs

/-- Insertion sort by `blockerBefore`. -/
def sortBlockers : List Finding → List Finding
  | [] => []
  | f :: fs => insertBlocker f (sortBlockers fs)

/-- The spec's blockers list (section 4.4): titles of all critical and high
findings, in descending severity then descending confidence order. -/
def specBlockers (fs : List Finding) : List String :=
  (sortBlockers (fs.filter
    (fun f => f.severity = Severity.critical || f.severity = Severity.high))).map
    (fun f => f.title)

/-! ## HomePage submission form (HomePage.tsx) -/

/-- The two input tabs of the HomePage form (`inputMethod` state). -/
inductive InputMethod where
  | url
  | diff
deriving DecidableEq

/-- The HomePage form state: `prUrl`, `diffText`, `useRepoRules`,
`inputMethod` (HomePage.tsx lines 17-20). -/
structure HomeState where
  prUrl : String
  diffText : String
  useRepoRules : Bool
  inputMethod : InputMethod
deriving DecidableEq

/-- The currently selected tab's text:
`inputMethod === 'url' ? prUrl : diffText` (HomePage.tsx line 24). -/
def activeInput (s : HomeState) : String :=
  match s.inputMethod with
  | InputMethod.url => s.prUrl
  | InputMethod.diff => s.diffText

/-- Strip leading and trailing whitespace characters from a character list. -/
def trimChars (l : List Char) : List Char :=
  ((l.dropWhile Char.isWhitespace).reverse.dropWhile Char.isWhitespace).reverse

/-- The JS `String.prototype.trim` used by HomePage.tsx: removes whitespace
from both ends of the string. -/
def jsTrim (s : String) : String :=
  String.mk (trimChars s.toList)

/-- `handleSubmit` from HomePage.tsx (lines 22-28): takes the active tab's
text; if its trim is non-empty, forwards `(input, \x7b useRepoRules \x7d)` to
`onAnalyze`, otherwise does nothing.  The returned value is the payload passed
to analysis (`none` when nothing is forwarded). -/
def handleSubmit (s : HomeState) : Option (String × AnalyzeOptions) :=
  let input := activeInput s
  if jsTrim input ≠ "" then some (input, { useRepoRules := s.useRepoRules }) else none

/-! ## Diff resolver truncation (spec-modelled) -/

/-- Modelled from the spec: the Diff Resolver's truncation marker.  The
resolver's code is not under src/ (the backend service files are absent); the
spec fixes only that the marker is a fixed string appended on truncation, so a
representative fixed marker is used. -/
def truncationMarker : List Char :=
  String.toList "\n... [diff truncated] ..."

/-- Modelled from the spec: the Diff Resolver's character budget (15,000). -/
def diffBudget : Nat := 15000

/-- Modelled from the spec (section 4.1): the Diff Resolver's truncation step.
The resolver's code is not under src/; per the spec, if the unified diff text
exceeds the fixed character budget, it is truncated to the budget and the
fixed truncation marker is appended; otherwise it is passed unchanged. -/
def resolveDiffText (d : List Char) : List Char :=
  if diffBudget < d.length then d.take diffBudget ++ truncationMarker else d

/-! ## App state machine (App.tsx) -/

/-- The two views of the App: `'home' | 'results'` (App.tsx line 39). -/
inductive View where
  | home
  | results
deriving DecidableEq

/-- The App component's state: `currentView`, `analysisResult`, `isAnalyzing`
(App.tsx lines 39-41), plus a ghost flag recording whether an analysis run has
reached its completed state (in the code, whether `handleAnalyze` has ever run
to completion). -/
structure AppState where
  currentView : View
  analysisResult : Option AnalysisResult
  isAnalyzing : Bool
  completedOnce : Bool
deriving DecidableEq

/-- The initial App state: home view, no result, not analyzing
(App.tsx lines 39-41). -/
def initialAppState : AppState :=
  { currentView := View.home
    analysisResult := none
    isAnalyzing := false
    completedOnce := false }

/-- One state transition of the App component, as performed by its handlers:
the start of `handleAnalyze` (sets `isAnalyzing`, available from the home view
while not already analyzing — the submit button is disabled otherwise), the
completion of `handleAnalyze` (stores `mockResult`, clears `isAnalyzing`,
switches to the results view), and `handleBackToHome` (switches to the home
view). -/
inductive AppStep : AppState → AppState → Prop
  | startAnalyze (s : AppState)
      (hv : s.currentView = View.home) (ha : s.isAnalyzing = false) :
      AppStep s { s with isAnalyzing := true }
  | finishAnalyze (s : AppState) (ha : s.isAnalyzing = true) :
      AppStep s { currentView := View.results
                  analysisResult := some mockResult
                  isAnalyzing := false
                  completedOnce := true }
  | backToHome (s : AppState) (hv : s.currentView = View.results) :
      AppStep s { s with currentView := View.home }

/-- States of the App reachable from the initial state by handler steps. -/
inductive Reachable : AppState → Prop
  | init : Reachable initialAppState
  | step {s t : AppState} : Reachable s → AppStep s t → Reachable t

/-- The App state right after an analysis completes: results view, the mock
result stored, not analyzing. -/
def resultState : AppState :=
  { currentView := View.results
    analysisResult := some mockResult
    isAnalyzing := false
    completedOnce := true }

/-- A form state with both the PR URL field and the diff text field non-blank
(URL tab active). -/
def bothFilledState : HomeState :=
  { prUrl := "https://github.com/owner/repo/pull/123"
    diffText := "diff --git a/f.py b/f.py"
    useRepoRules := false
    inputMethod := InputMethod.url }

/-- A form state with a whitespace-only URL field and the URL tab active. -/
def wsUrlState : HomeState :=
  { prUrl := "  "
    diffText := ""
    useRepoRules := false
    inputMethod := InputMethod.url }

/-- A form state with both fields non-blank and the diff tab active. -/
def diffTabState : HomeState :=
  { prUrl := "u"
    diffText := "d"
    useRepoRules := true
    inputMethod := InputMethod.diff }

/-- A URL-tab form state whose diff field holds one inactive text. -/
def urlTabStateA : HomeState :=
  { prUrl := "u"
    diffText := "ignored one"
    useRepoRules := true
    inputMethod := InputMethod.url }

/-- The same URL-tab form state with a different inactive diff text. -/
def urlTabStateB : HomeState :=
  { prUrl := "u"
    diffText := "ignored two"
    useRepoRules := true
    inputMethod := InputMethod.url }

/-- The first finding of the mock result. -/
def firstMockFinding : Finding :=
  mockResult.findings.head (by decide)

/-! ## Claim theorems -/

/-- C1 counterexample: the result `handleAnalyze` returns for a concrete
submitted input has `merge_readiness.score = 62`, while the spec's clamp
formula applied to its findings (1 critical, 2 high, 6 total) yields 28, so
the produced score does not equal the formula value. -/
theorem mock_score_ne_spec_score :
    (handleAnalyze "https://github.com/owner/repo/pull/123"
        { useRepoRules := false }).merge_readiness.score = 62 ∧
    specScore (handleAnalyze "https://github.com/owner/repo/pull/123"
        { useRepoRules := false }).findings = 28 ∧
    (handleAnalyze "https://github.com/owner/repo/pull/123"
        { useRepoRules := false }).merge_readiness.score ≠
      specScore (handleAnalyze "https://github.com/owner/repo/pull/123"
        { useRepoRules := false }).findings := by
  refine ⟨rfl, by decide, by decide⟩

/-- C1 (amended): for every submitted input, the AnalysisResult produced by
`handleAnalyze` carries the hardcoded `merge_readiness.score` 62, which
differs from the clamp-formula value 28 for its findings. -/
theorem mock_score_fixed :
    ∀ (p : String) (o : AnalyzeOptions),
      (handleAnalyze p o).merge_readiness.score = 62 ∧
      specScore (handleAnalyze p o).findings = 28 ∧
      (handleAnalyze p o).merge_readiness.score ≠
        specScore (handleAnalyze p o).findings := by
  intro p o
  exact ⟨rfl, (by decide : specScore mockResult.findings = 28),
    (by decide : mockResult.merge_readiness.score ≠ specScore mockResult.findings)⟩

/-- C2 counterexample: the result `handleAnalyze` returns for a concrete
submitted input has `merge_readiness.blockers` equal to two prose strings,
not the titles of its three critical/high findings in descending severity
then descending confidence order. -/
theorem mock_blockers_ne_spec_blockers :
    specBlockers (handleAnalyze "https://github.com/owner/repo/pull/123"
        { useRepoRules := false }).findings =
      [ "Potential auth bypass in middleware"
      , "Hardcoded JWT secret in test file"
      , "Missing rate limiting on new auth endpoints" ] ∧
    (handleAnalyze "https://github.com/owner/repo/pull/123"
        { useRepoRules := false }).merge_readiness.blockers ≠
      specBlockers (handleAnalyze "https://github.com/owner/repo/pull/123"
        { useRepoRules := false }).findings := by
  refine ⟨by decide, by decide⟩

/-- C2 (amended): for every submitted input, `merge_readiness.blockers` of
the produced result is the fixed two-element prose list, which is not the
list of titles of the critical and high findings in descending severity then
descending confidence order (that list has three elements and different
strings). -/
theorem mock_blockers_fixed :
    ∀ (p : String) (o : AnalyzeOptions),
      (handleAnalyze p o).merge_readiness.blockers =
        [ "Critical: Auth bypass vulnerability must be fixed"
        , "High: Rate limiting must be implemented on auth endpoints" ] ∧
      specBlockers (handleAnalyze p o).findings =
        [ "Potential auth bypass in middleware"
        , "Hardcoded JWT secret in test file"
        , "Missing rate limiting on new auth endpoints" ] := by
  intro p o
  exact ⟨rfl, (by decide : specBlockers mockResult.findings =
    [ "Potential auth bypass in middleware"
    , "Hardcoded JWT secret in test file"
    , "Missing rate limiting on new auth endpoints" ])⟩

/-- C3: `handleAnalyze` produces the identical AnalysisResult for every pair
of submitted inputs — the result does not depend on the PR URL, diff text,
or options. -/
theorem handleAnalyze_input_independent :
    ∀ (p₁ p₂ : String) (o₁ o₂ : AnalyzeOptions),
      handleAnalyze p₁ o₁ = handleAnalyze p₂ o₂ :=
  fun _ _ _ _ => rfl

/-- C4 counterexample: a submission with both a non-blank PR URL and
non-blank diff text is forwarded to analysis by `handleSubmit` (the active
tab's text is passed on), instead of failing fast with InputError. -/
theorem both_inputs_forwarded :
    jsTrim bothFilledState.prUrl ≠ "" ∧
    jsTrim bothFilledState.diffText ≠ "" ∧
    handleSubmit bothFilledState =
      some ("https://github.com/owner/repo/pull/123", { useRepoRules := false }) := by
  refine ⟨by decide, by decide, by decide⟩

/-- C4 (amended): a submission whose active tab's text is empty or
whitespace-only is never forwarded to analysis (the handler silently does
nothing, raising no InputError); a submission with both fields non-blank is
forwarded with the active tab's text rather than rejected. -/
theorem blank_active_input_not_forwarded :
    (∀ s : HomeState, jsTrim (activeInput s) = "" → handleSubmit s = none) ∧
    (∀ s : HomeState, jsTrim s.prUrl ≠ "" → jsTrim s.diffText ≠ "" →
      handleSubmit s = some (activeInput s, { useRepoRules := s.useRepoRules })) := by
  constructor
  · intro s h
    simp only [handleSubmit]
    rw [if_neg]
    intro hne
    exact hne h
  · intro s h₁ h₂
    have h : jsTrim (activeInput s) ≠ "" := by
      cases hm : s.inputMethod with
      | url => simpa only [activeInput, hm] using h₁
      | diff => simpa only [activeInput, hm] using h₂
    simp only [handleSubmit]
    rw [if_pos h]

/-- C4 witness: the amended claim at concrete form states — a whitespace-only
URL-tab submission is not forwarded, and a both-filled diff-tab submission is
forwarded with the diff text. -/
theorem blank_active_input_not_forwarded_witness :
    handleSubmit wsUrlState = none ∧
    handleSubmit diffTabState =
      some (activeInput diffTabState, { useRepoRules := diffTabState.useRepoRules }) :=
  ⟨blank_active_input_not_forwarded.1 wsUrlState (by decide),
   blank_active_input_not_forwarded.2 diffTabState (by decide) (by decide)⟩

/-- C5: the analysis is deterministic — two runs of `handleAnalyze` on
identical input produce identical findings and an identical
`merge_readiness.score`. -/
theorem handleAnalyze_deterministic :
    ∀ (p₁ p₂ : String) (o₁ o₂ : AnalyzeOptions), p₁ = p₂ → o₁ = o₂ →
      (handleAnalyze p₁ o₁).findings = (handleAnalyze p₂ o₂).findings ∧
      (handleAnalyze p₁ o₁).merge_readiness.score =
        (handleAnalyze p₂ o₂).merge_readiness.score := by
  intro p₁ p₂ o₁ o₂ hp ho
  subst hp; subst ho
  exact ⟨rfl, rfl⟩

/-- C5 witness: determinism applied to a concrete repeated input. -/
theorem handleAnalyze_deterministic_witness :
    (handleAnalyze "https://github.com/owner/repo/pull/123"
        { useRepoRules := true }).findings =
      (handleAnalyze "https://github.com/owner/repo/pull/123"
        { useRepoRules := true }).findings ∧
    (handleAnalyze "https://github.com/owner/repo/pull/123"
        { useRepoRules := true }).merge_readiness.score =
      (handleAnalyze "https://github.com/owner/repo/pull/123"
        { useRepoRules := true }).merge_readiness.score :=
  handleAnalyze_deterministic _ _ _ _ rfl rfl

/-- C6: every finding of every AnalysisResult the program produces has
confidence within [0,1] and severity drawn from the four-value enum. -/
theorem findings_confidence_severity_valid :
    ∀ (p : String) (o : AnalyzeOptions) (f : Finding),
      f ∈ (handleAnalyze p o).findings →
      (0 ≤ f.confidence ∧ f.confidence ≤ 1) ∧
      (f.severity = Severity.critical ∨ f.severity = Severity.high ∨
       f.severity = Severity.medium ∨ f.severity = Severity.low) := by
  intro p o f hf
  constructor
  · exact (by decide :
      ∀ g ∈ mockResult.findings, 0 ≤ g.confidence ∧ g.confidence ≤ 1) f hf
  · rcases f with ⟨t, sev, c, fl, ev, rc⟩
    cases sev <;> simp

/-- C6 witness: the invariant at the first finding of the produced result. -/
theorem findings_confidence_severity_valid_witness :
    (0 ≤ firstMockFinding.confidence ∧ firstMockFinding.confidence ≤ 1) ∧
    (firstMockFinding.severity = Severity.critical ∨
     firstMockFinding.severity = Severity.high ∨
     firstMockFinding.severity = Severity.medium ∨
     firstMockFinding.severity = Severity.low) :=
  findings_confidence_severity_valid "" { useRepoRules := false }
    firstMockFinding (by decide)

/-- C7: every AnalysisResult the program produces has an integer
`merge_readiness.score` within [0, 100]. -/
theorem score_in_range :
    ∀ (p : String) (o : AnalyzeOptions),
      0 ≤ (handleAnalyze p o).merge_readiness.score ∧
      (handleAnalyze p o).merge_readiness.score ≤ 100 := by
  intro p o
  exact ⟨(by decide : 0 ≤ mockResult.merge_readiness.score),
    (by decide : mockResult.merge_readiness.score ≤ 100)⟩

/-- C8: in every reachable App state, the results view is rendered only with
a non-null AnalysisResult present, and a result is present exactly when an
analysis run has completed. -/
theorem result_iff_completed (s : AppState) (h : Reachable s) :
    (s.currentView = View.results → s.analysisResult.isSome = true) ∧
    (s.analysisResult.isSome = true ↔ s.completedOnce = true) := by
  induction h with
  | init => exact ⟨fun hv => by simp [initialAppState] at hv, by simp [initialAppState]⟩
  | step hr hst ih =>
    cases hst with
    | startAnalyze hv ha => exact ⟨fun hc => ih.1 hc, ih.2⟩
    | finishAnalyze ha => exact ⟨fun _ => rfl, by simp⟩
    | backToHome hv => exact ⟨fun hc => by simp at hc, ih.2⟩

/-- C8 witness: the invariant at the concrete state reached by starting and
finishing one analysis from the initial state. -/
theorem result_iff_completed_witness :
    (resultState.currentView = View.results →
      resultState.analysisResult.isSome = true) ∧
    (resultState.analysisResult.isSome = true ↔ resultState.completedOnce = true) :=
  result_iff_completed resultState
    (Reachable.step
      (Reachable.step Reachable.init
        (AppStep.startAnalyze initialAppState rfl rfl))
      (AppStep.finishAnalyze _ rfl))

/-- C9: for every diff text longer than the 15,000-character budget, the
resolver's output is exactly the first 15,000 characters plus the fixed
truncation marker; the full over-budget text is never passed downstream. -/
theorem resolver_truncation (d : List Char) (h : diffBudget < d.length) :
    resolveDiffText d = d.take diffBudget ++ truncationMarker ∧
    (d.take diffBudget).length = diffBudget ∧
    (resolveDiffText d).length = diffBudget + truncationMarker.length := by
  have h1 : resolveDiffText d = d.take diffBudget ++ truncationMarker := by
    simp [resolveDiffText, h]
  have h2 : (d.take diffBudget).length = diffBudget := by
    rw [List.length_take]
    omega
  refine ⟨h1, h2, ?_⟩
  rw [h1, List.length_append, h2]

/-- C9 witness: truncation of a concrete 15,001-character diff. -/
theorem resolver_truncation_witness :
    resolveDiffText (List.replicate 15001 'a') =
      (List.replicate 15001 'a').take diffBudget ++ truncationMarker ∧
    ((List.replicate 15001 'a').take diffBudget).length = diffBudget ∧
    (resolveDiffText (List.replicate 15001 'a')).length =
      diffBudget + truncationMarker.length :=
  resolver_truncation (List.replicate 15001 'a')
    (by simp only [List.length_replicate, diffBudget]; omega)

/-- C10: the payload `handleSubmit` forwards is exactly the active tab's text
together with options holding only the `useRepoRules` flag, and the
submission's outcome depends only on the selected tab, the active tab's text,
and that flag — the inactive tab's text has no effect. -/
theorem submit_payload_exact :
    (∀ (s : HomeState) (p : String × AnalyzeOptions), handleSubmit s = some p →
      p = (activeInput s, { useRepoRules := s.useRepoRules })) ∧
    (∀ s t : HomeState, s.inputMethod = t.inputMethod →
      activeInput s = activeInput t → s.useRepoRules = t.useRepoRules →
      handleSubmit s = handleSubmit t) := by
  constructor
  · intro s p hp
    simp only [handleSubmit] at hp
    by_cases h : jsTrim (activeInput s) = ""
    · simp [h] at hp
    · simp [h] at hp
      exact hp.symm
  · intro s t hm ha hu
    simp only [handleSubmit]
    rw [ha, hu]

/-- C10 witness: the payload theorem at a concrete submission, and
insensitivity to the inactive tab's text at two concrete form states that
differ only in the diff field while the URL tab is active. -/
theorem submit_payload_exact_witness :
    (("https://github.com/owner/repo/pull/123",
        ({ useRepoRules := false } : AnalyzeOptions)) =
      (activeInput bothFilledState,
        { useRepoRules := bothFilledState.useRepoRules })) ∧
    handleSubmit urlTabStateA = handleSubmit urlTabStateB :=
  ⟨submit_payload_exact.1 bothFilledState _ (by decide),
   submit_payload_exact.2 urlTabStateA urlTabStateB rfl rfl rfl⟩

end PRReviewer
